import Mathlib

set_option maxHeartbeats 1000000

/-- Full-time result of a match: home win, draw, or away win (column FTR). -/
inductive FTR where
  | H
  | D
  | A
deriving DecidableEq, Repr

/-- A row of the match history (master_data.csv): teams, full-time goals and
result. The history list stands for the dataframe after it has been sorted
ascending by date, as both training and inference sort it before any use. -/
structure MatchRow where
  homeTeam : String
  awayTeam : String
  fthg : Nat
  ftag : Nat
  ftr : FTR
deriving DecidableEq, Repr

/-- The stats dictionary built by get_team_stats in glitch_engine.py and
predict_glitch.py: form points and the three goal-derived rates. -/
structure TeamStats where
  form : Nat
  avg_goals : ℚ
  avg_conceded : ℚ
  btts_rate : ℚ
deriving DecidableEq, Repr

/-- The neutral default stats returned when a team has no usable window. -/
def defaultStats : TeamStats :=
  { form := 7, avg_goals := 13/10, avg_conceded := 12/10, btts_rate := 50 }

/-- pandas DataFrame.tail n: the last n rows of the frame. -/
def pdTail (n : Nat) (l : List α) : List α := l.drop (l.length - n)

/-- The rows where the team is the home side. -/
def homeMatches (df : List MatchRow) (team : String) : List MatchRow :=
  df.filter (fun m => m.homeTeam == team)

/-- The rows where the team is the away side. -/
def awayMatches (df : List MatchRow) (team : String) : List MatchRow :=
  df.filter (fun m => m.awayTeam == team)

/-- The rows where the team appears on either side. -/
def teamMatches (df : List MatchRow) (team : String) : List MatchRow :=
  df.filter (fun m => m.homeTeam == team || m.awayTeam == team)

/-- Points the team takes from one match row: the loop body of the form
calculation checks whether the team was the home side in that row and
awards 3 for a win, 1 for a draw, 0 otherwise. -/
def matchPoints (team : String) (m : MatchRow) : Nat :=
  if m.homeTeam == team then
    match m.ftr with
    | .H => 3
    | .D => 1
    | .A => 0
  else
    match m.ftr with
    | .A => 3
    | .D => 1
    | .H => 0

/-- Form points summed over a window of rows. -/
def formPoints (team : String) (window : List MatchRow) : Nat :=
  (window.map (matchPoints team)).sum

/-- np.mean over a list of naturals, as an exact rational. -/
def listMean (l : List Nat) : ℚ := (l.sum : ℚ) / (l.length : ℚ)

/-- Whether both teams scored in this row. -/
def bttsBit (m : MatchRow) : Bool := decide (0 < m.fthg) && decide (0 < m.ftag)

/-- Goals scored, goals conceded and BTTS rate from the team's last n home
rows, with the home-side defaults if that venue window is empty. This block
is textually identical in glitch_engine.py and predict_glitch.py. -/
def homeGoalsPart (df : List MatchRow) (team : String) (n : Nat) : ℚ × ℚ × ℚ :=
  let hg := pdTail n (homeMatches df team)
  if hg.length = 0 then (13/10, 12/10, 50)
  else (listMean (hg.map MatchRow.fthg), listMean (hg.map MatchRow.ftag),
        ((hg.countP bttsBit : ℚ) / (hg.length : ℚ)) * 100)

/-- Goals scored, goals conceded and BTTS rate from the team's last n away
rows, with the asymmetric away-side defaults if that window is empty. -/
def awayGoalsPart (df : List MatchRow) (team : String) (n : Nat) : ℚ × ℚ × ℚ :=
  let ag := pdTail n (awayMatches df team)
  if ag.length = 0 then (11/10, 14/10, 50)
  else (listMean (ag.map MatchRow.ftag), listMean (ag.map MatchRow.fthg),
        ((ag.countP bttsBit : ℚ) / (ag.length : ℚ)) * 100)

namespace PredictGlitch

/-- The venue window chosen by predict_glitch.get_team_stats: the team's
last n rows at the queried venue, falling back to the last n rows at any
venue when fewer than n venue rows exist. -/
def venueWindow (df : List MatchRow) (team : String) (is_home : Bool) (n : Nat) :
    List MatchRow :=
  if is_home then
    let vg := pdTail n (homeMatches df team)
    if vg.length < n then pdTail n (teamMatches df team) else vg
  else
    let vg := pdTail n (awayMatches df team)
    if vg.length < n then pdTail n (teamMatches df team) else vg

/-- predict_glitch.get_team_stats: form from the venue window, goal rates
from the strictly venue-filtered window, defaults when nothing is left. -/
def get_team_stats (df : List MatchRow) (team : String) (is_home : Bool) (n : Nat) :
    TeamStats :=
  let w := venueWindow df team is_home n
  if w.length = 0 then defaultStats
  else
    let g := if is_home then homeGoalsPart df team n else awayGoalsPart df team n
    { form := formPoints team w, avg_goals := g.1, avg_conceded := g.2.1,
      btts_rate := g.2.2 }

end PredictGlitch

namespace GlitchEngine

/-- The venue window chosen by glitch_engine.get_team_stats: same venue
filter, but the fallback to all venues triggers below 3 rows, not n. -/
def venueWindow (df : List MatchRow) (team : String) (is_home : Bool) (n : Nat) :
    List MatchRow :=
  let vg := if is_home then pdTail n (homeMatches df team)
            else pdTail n (awayMatches df team)
  if vg.length < 3 then pdTail n (teamMatches df team) else vg

/-- glitch_engine.get_team_stats; it also accepts a missing dataframe
(df is None) and answers the neutral defaults in that case. -/
def get_team_stats (odf : Option (List MatchRow)) (team : String) (is_home : Bool)
    (n : Nat) : TeamStats :=
  match odf with
  | none => defaultStats
  | some df =>
    let w := venueWindow df team is_home n
    if w.length = 0 then defaultStats
    else
      let g := if is_home then homeGoalsPart df team n else awayGoalsPart df team n
      { form := formPoints team w, avg_goals := g.1, avg_conceded := g.2.1,
        btts_rate := g.2.2 }

end GlitchEngine

namespace TrainGlitch

/-- The per-team tracking lists of train_glitch.calculate_rolling_stats.
Each field is a defaultdict(list): a total map from team name to the list
of values recorded so far, every key starting at the empty list. -/
structure TrackState where
  team_results : String → List Nat
  home_goals : String → List Nat
  home_conceded : String → List Nat
  away_goals : String → List Nat
  away_conceded : String → List Nat
  home_btts : String → List Nat
  away_btts : String → List Nat

/-- The empty tracking state before the first row is processed. -/
def initState : TrackState :=
  { team_results := fun _ => [], home_goals := fun _ => [],
    home_conceded := fun _ => [], away_goals := fun _ => [],
    away_conceded := fun _ => [], home_btts := fun _ => [],
    away_btts := fun _ => [] }

/-- tracking[k].append v on a defaultdict(list). -/
def appendAt (f : String → List Nat) (k : String) (v : Nat) : String → List Nat :=
  fun t => if t == k then f t ++ [v] else f t

/-- Form points the home side takes from a result. -/
def homePts (r : FTR) : Nat :=
  match r with
  | .H => 3
  | .D => 1
  | .A => 0

/-- Form points the away side takes from a result. -/
def awayPts (r : FTR) : Nat :=
  match r with
  | .H => 0
  | .D => 1
  | .A => 3

/-- Second half of one loop iteration: append this row's outcome to every
tracking list. In the source this runs only after the row's features have
been written. -/
def updateState (st : TrackState) (m : MatchRow) : TrackState :=
  { team_results :=
      appendAt (appendAt st.team_results m.homeTeam (homePts m.ftr)) m.awayTeam
        (awayPts m.ftr)
    home_goals := appendAt st.home_goals m.homeTeam m.fthg
    home_conceded := appendAt st.home_conceded m.homeTeam m.ftag
    away_goals := appendAt st.away_goals m.awayTeam m.ftag
    away_conceded := appendAt st.away_conceded m.awayTeam m.fthg
    home_btts := appendAt st.home_btts m.homeTeam (if bttsBit m then 1 else 0)
    away_btts := appendAt st.away_btts m.awayTeam (if bttsBit m then 1 else 0) }

/-- Python list[-n:] slicing; for n = 0 it is the whole list. -/
def pyLast (n : Nat) (l : List α) : List α :=
  if n = 0 then l else l.drop (l.length - n)

/-- The eight feature cells written for one row. none encodes NaN: the cell
is left missing when the team's tracked history is shorter than n. -/
structure RowFeatures where
  homeTeamForm : Option Nat
  awayTeamForm : Option Nat
  homeAvgGoals : Option ℚ
  homeAvgConceded : Option ℚ
  homeBttsRate : Option ℚ
  awayAvgGoals : Option ℚ
  awayAvgConceded : Option ℚ
  awayBttsRate : Option ℚ
deriving DecidableEq, Repr

/-- First half of one loop iteration: this row's features, computed from
the tracking state built from the strictly earlier rows only. The three
home-venue cells share one length guard on home_goals, the three away-venue
cells share one guard on away_goals, exactly as in the source. -/
def computeRow (st : TrackState) (n : Nat) (m : MatchRow) : RowFeatures :=
  { homeTeamForm :=
      if n ≤ (st.team_results m.homeTeam).length then
        some (pyLast n (st.team_results m.homeTeam)).sum
      else none
    awayTeamForm :=
      if n ≤ (st.team_results m.awayTeam).length then
        some (pyLast n (st.team_results m.awayTeam)).sum
      else none
    homeAvgGoals :=
      if n ≤ (st.home_goals m.homeTeam).length then
        some (listMean (pyLast n (st.home_goals m.homeTeam)))
      else none
    homeAvgConceded :=
      if n ≤ (st.home_goals m.homeTeam).length then
        some (listMean (pyLast n (st.home_conceded m.homeTeam)))
      else none
    homeBttsRate :=
      if n ≤ (st.home_goals m.homeTeam).length then
        some (listMean (pyLast n (st.home_btts m.homeTeam)) * 100)
      else none
    awayAvgGoals :=
      if n ≤ (st.away_goals m.awayTeam).length then
        some (listMean (pyLast n (st.away_goals m.awayTeam)))
      else none
    awayAvgConceded :=
      if n ≤ (st.away_goals m.awayTeam).length then
        some (listMean (pyLast n (st.away_conceded m.awayTeam)))
      else none
    awayBttsRate :=
      if n ≤ (st.away_goals m.awayTeam).length then
        some (listMean (pyLast n (st.away_btts m.awayTeam)) * 100)
      else none }

/-- The main loop of calculate_rolling_stats: for each row in date order,
first compute the row's features from the current state, then fold the
row's actual result into the state. -/
def rollingLoop (n : Nat) : TrackState → List MatchRow → List RowFeatures
  | _, [] => []
  | st, m :: rest => computeRow st n m :: rollingLoop n (updateState st m) rest

/-- train_glitch.calculate_rolling_stats restricted to the eight feature
columns it adds: one RowFeatures per row of the date-sorted history. -/
def calculate_rolling_stats (n : Nat) (df : List MatchRow) : List RowFeatures :=
  rollingLoop n initState df

/-- The tracking state after folding a list of rows into a start state. -/
def stateAfter : TrackState → List MatchRow → TrackState
  | st, [] => st
  | st, m :: rest => stateAfter (updateState st m) rest

end TrainGlitch

namespace Scout

/-- One entry of the injuries list built from the injuries API response. -/
structure Injury where
  player_name : String
  reason : String
deriving DecidableEq, Repr

/-- Whether the first list starts with the second one. -/
def startsWith : List Char → List Char → Bool
  | _, [] => true
  | [], _ :: _ => false
  | a :: l, b :: sub => a == b && startsWith l sub

/-- Python "sub in s" on character lists. -/
def listSub (sub : List Char) : List Char → Bool
  | [] => sub.isEmpty
  | b :: l => startsWith (b :: l) sub || listSub sub l

/-- Python "sub in s" on strings. -/
def strContains (s sub : String) : Bool := listSub sub.data s.data

/-- str.lower. -/
def lowerStr (s : String) : String := String.mk (s.data.map Char.toLower)

/-- The hardcoded key-player lists per API team id. -/
def key_players_db (team_id : Nat) : List String :=
  if team_id = 42 then ["Saka", "Saliba", "Odegaard", "Rice", "Havertz"]
  else if team_id = 49 then ["Palmer", "Jackson", "Caicedo", "Reece James"]
  else if team_id = 50 then ["Haaland", "De Bruyne", "Rodri", "Dias"]
  else if team_id = 40 then ["Salah", "Van Dijk", "Alexander-Arnold", "Mac Allister"]
  else if team_id = 33 then ["Fernandes", "Rashford", "Casemiro", "Martinez"]
  else if team_id = 47 then ["Son", "Maddison", "Romero", "Van de Ven"]
  else []

/-- Whether the injured player's name matches one of the team's key
players, case-insensitively by substring. -/
def isKeyInjury (kps : List String) (inj : Injury) : Bool :=
  kps.any (fun kp => strContains (lowerStr inj.player_name) (lowerStr kp))

/-- Points subtracted from the squad score for one injury. -/
def injuryDeduction (kps : List String) (inj : Injury) : Int :=
  if isKeyInjury kps inj then 15 else 3

/-- The reason line recorded for one injury. -/
def injuryReason (kps : List String) (inj : Injury) : String :=
  if isKeyInjury kps inj then "KEY PLAYER OUT: " ++ inj.player_name
  else inj.player_name ++ " (" ++ inj.reason ++ ")"

/-- The record returned by scout.calculate_squad_strength. -/
structure SquadStrength where
  score : Int
  injuries_count : Nat
  reasons : List String
  status : String
deriving DecidableEq, Repr

/-- scout.calculate_squad_strength: start at 100, subtract 15 per key-player
injury and 3 per other injury, clamp at 0, and derive the status band. -/
def calculate_squad_strength (team_id : Nat) (injuries : List Injury) :
    SquadStrength :=
  let kps := key_players_db team_id
  let score0 : Int := injuries.foldl (fun s inj => s - injuryDeduction kps inj) 100
  let score := max 0 score0
  { score := score,
    injuries_count := injuries.length,
    reasons := (injuries.map (injuryReason kps)).take 5,
    status := if 85 ≤ score then "STRONG" else if 70 ≤ score then "MODERATE" else "WEAK" }

/-- One side of the get_team_news result. -/
structure TeamNewsSide where
  score : Int
  status : String
  injuries : List String
deriving DecidableEq, Repr

/-- The squad-risk gate signal returned by scout.get_team_news. -/
structure GateResult where
  home : TeamNewsSide
  away : TeamNewsSide
  should_skip : Bool
  skip_reason : Option String
deriving DecidableEq, Repr

/-- scout.get_team_news without the fixture/lineup branch. The injury lists
are parameters standing for what the injuries API returned for each id; a
missing id leaves that side at the 100/UNKNOWN default, as in the source. -/
def get_team_news (home_team_id away_team_id : Option Nat)
    (home_injuries away_injuries : List Injury) : GateResult :=
  let homeSide : TeamNewsSide :=
    match home_team_id with
    | none => { score := 100, status := "UNKNOWN", injuries := [] }
    | some tid =>
      let s := calculate_squad_strength tid home_injuries
      { score := s.score, status := s.status, injuries := s.reasons }
  let awaySide : TeamNewsSide :=
    match away_team_id with
    | none => { score := 100, status := "UNKNOWN", injuries := [] }
    | some tid =>
      let s := calculate_squad_strength tid away_injuries
      { score := s.score, status := s.status, injuries := s.reasons }
  let min_score := min homeSide.score awaySide.score
  if min_score < 70 then
    let weak_team := if homeSide.score < awaySide.score then "Home" else "Away"
    { home := homeSide, away := awaySide, should_skip := true,
      skip_reason := some (weak_team ++
        " team has too many key players missing (Squad Score: " ++
        toString min_score ++ "%)") }
  else
    { home := homeSide, away := awaySide, should_skip := false, skip_reason := none }

end Scout

/-- The eight-column feature row prepared for the models by
prepare_features, in the fixed schema order from features.json. -/
structure FeatureRow where
  homeTeamForm : ℚ
  awayTeamForm : ℚ
  homeAvgGoals : ℚ
  awayAvgGoals : ℚ
  homeAvgConceded : ℚ
  awayAvgConceded : ℚ
  homeBttsRate : ℚ
  awayBttsRate : ℚ
deriving DecidableEq, Repr

/-- prepare_features: assemble the single feature row from the two stats
objects. -/
def prepare_features (hs ha : TeamStats) : FeatureRow :=
  { homeTeamForm := hs.form, awayTeamForm := ha.form,
    homeAvgGoals := hs.avg_goals, awayAvgGoals := ha.avg_goals,
    homeAvgConceded := hs.avg_conceded, awayAvgConceded := ha.avg_conceded,
    homeBttsRate := hs.btts_rate, awayBttsRate := ha.btts_rate }

/-- The Model Bank: the three trained classifiers are kept abstract as
probability functions (predict_proba). Class order follows features.json:
win = (Home, Draw, Away), goals = (Under, Over), btts = (No, Yes). -/
structure Models where
  win : FeatureRow → ℚ × ℚ × ℚ
  goals : FeatureRow → ℚ × ℚ
  btts : FeatureRow → ℚ × ℚ

/-- np.argmax on three cells: the index of the first maximum. -/
def argmax3 (a b c : ℚ) : Nat :=
  if b ≤ a ∧ c ≤ a then 0 else if c ≤ b then 1 else 2

/-- The result-market label list indexed by argmax. -/
def winLabel (i : Nat) : String := ["Home Win", "Draw", "Away Win"].getD i ""

/-- Python max over the three (market, bet, probability) triples, keyed on
the probability: the first maximal element wins. -/
def pyMax3 (x y z : String × String × ℚ) : String × String × ℚ :=
  let m1 := if y.2.2 > x.2.2 then y else x
  if z.2.2 > m1.2.2 then z else m1

/-- Whether a team name appears anywhere in the history (the known team
set used by list_teams and the CLI validation). -/
def knownTeam (df : List MatchRow) (team : String) : Bool :=
  df.any (fun m => m.homeTeam == team || m.awayTeam == team)

namespace PredictGlitch

/-- One market's block in the predict_all_markets result: the labelled
probability distribution, the arg-max probability and its label. -/
structure MarketPred where
  probabilities : List (String × ℚ)
  best_prob : ℚ
  best_bet : String
deriving DecidableEq, Repr

/-- The full (non-skip) result of predict_all_markets. -/
structure PredictionResult where
  home_team : String
  away_team : String
  win : MarketPred
  goals : MarketPred
  btts : MarketPred
  safest_market : String
  safest_bet : String
  safest_confidence : ℚ
  home_stats : TeamStats
  away_stats : TeamStats
deriving DecidableEq, Repr

/-- The three shapes predict_all_markets can return: the error dictionary,
the skip dictionary (which carries no market predictions), or a full
prediction. -/
inductive Outcome where
  | err (msg : String)
  | skippedMatch (home_team away_team : String) (skip_reason : Option String)
      (home_stats away_stats : TeamStats)
  | prediction (p : PredictionResult)
deriving DecidableEq, Repr

/-- The market blocks and safest-glitch selection of predict_all_markets,
given loaded models and history. -/
def buildPrediction (ms : Models) (df : List MatchRow) (home_team away_team : String) :
    PredictionResult :=
  let hs := get_team_stats df home_team true 5
  let ha := get_team_stats df away_team false 5
  let X := prepare_features hs ha
  let wp := ms.win X
  let win : MarketPred :=
    { probabilities := [("Home Win", wp.1 * 100), ("Draw", wp.2.1 * 100),
        ("Away Win", wp.2.2 * 100)],
      best_prob := max wp.1 (max wp.2.1 wp.2.2) * 100,
      best_bet := winLabel (argmax3 wp.1 wp.2.1 wp.2.2) }
  let gp := ms.goals X
  let goals : MarketPred :=
    { probabilities := [("Under 2.5", gp.1 * 100), ("Over 2.5", gp.2 * 100)],
      best_prob := max gp.1 gp.2 * 100,
      best_bet := if gp.1 < gp.2 then "Over 2.5" else "Under 2.5" }
  let bp := ms.btts X
  let btts : MarketPred :=
    { probabilities := [("No BTTS", bp.1 * 100), ("BTTS", bp.2 * 100)],
      best_prob := max bp.1 bp.2 * 100,
      best_bet := if bp.1 < bp.2 then "BTTS" else "No BTTS" }
  let safest := pyMax3 ("win", win.best_bet, win.best_prob)
    ("goals", goals.best_bet, goals.best_prob) ("btts", btts.best_bet, btts.best_prob)
  { home_team := home_team, away_team := away_team, win := win, goals := goals,
    btts := btts, safest_market := safest.1, safest_bet := safest.2.1,
    safest_confidence := safest.2.2, home_stats := hs, away_stats := ha }

/-- predict_glitch.predict_all_markets. The Model Bank, the loaded history
and the squad-gate outcome are parameters: file loading and the network
call are the out-of-scope collaborators that produce them (none stands for
unavailable artifacts / missing file / gate not run). The function performs
no validation of the team names against the history. -/
def predict_all_markets (omodels : Option Models) (odf : Option (List MatchRow))
    (gate : Option Scout.GateResult) (home_team away_team : String) : Outcome :=
  match omodels with
  | none => .err "Models not loaded. Run train_glitch.py first."
  | some ms =>
    match odf with
    | none => .err "Historical data not found."
    | some df =>
      let hs := get_team_stats df home_team true 5
      let ha := get_team_stats df away_team false 5
      match gate with
      | some g =>
        if g.should_skip then
          .skippedMatch home_team away_team g.skip_reason hs ha
        else .prediction (buildPrediction ms df home_team away_team)
      | none => .prediction (buildPrediction ms df home_team away_team)

end PredictGlitch

namespace GlitchEngine

/-- The result-market block of a glitch_engine prediction. -/
structure WinMarket where
  home : ℚ
  draw : ℚ
  away : ℚ
  best : String
  confidence : ℚ
deriving DecidableEq, Repr

/-- The goals-market block of a glitch_engine prediction. -/
structure GoalsMarket where
  under : ℚ
  over : ℚ
  best : String
  confidence : ℚ
deriving DecidableEq, Repr

/-- The BTTS-market block of a glitch_engine prediction. -/
structure BttsMarket where
  no : ℚ
  yes : ℚ
  best : String
  confidence : ℚ
deriving DecidableEq, Repr

/-- The dictionary returned by predict_match_ml / predict_match_heuristic. -/
structure EngineResult where
  home_team : String
  away_team : String
  win : WinMarket
  goals : GoalsMarket
  btts : BttsMarket
  safest_market : String
  safest_bet : String
  safest_confidence : ℚ
  home_stats : TeamStats
  away_stats : TeamStats
  using_ml : Bool
deriving DecidableEq, Repr

/-- Home stats as the heuristic path takes them: the engine lookup when the
history loaded, otherwise its inline default dictionary. -/
def heurHomeStats (odf : Option (List MatchRow)) (team : String) : TeamStats :=
  match odf with
  | some df => get_team_stats (some df) team true 5
  | none => { form := 7, avg_goals := 13/10, avg_conceded := 12/10, btts_rate := 50 }

/-- Away stats as the heuristic path takes them, with the away-tilted
inline default dictionary. -/
def heurAwayStats (odf : Option (List MatchRow)) (team : String) : TeamStats :=
  match odf with
  | some df => get_team_stats (some df) team false 5
  | none => { form := 7, avg_goals := 11/10, avg_conceded := 14/10, btts_rate := 50 }

/-- glitch_engine.predict_match_heuristic: the fallback used when the model
artifacts cannot be loaded. Result probabilities come from the ratio of
each side's form points to the combined total, with the 1.1 home boost and
0.9 away dampening; goals and BTTS use fixed 52 and 55 confidences. -/
def predict_match_heuristic (odf : Option (List MatchRow))
    (home_team away_team : String) : EngineResult :=
  let home_stats := heurHomeStats odf home_team
  let away_stats := heurAwayStats odf away_team
  let total0 := home_stats.form + away_stats.form
  let total_form := if total0 = 0 then 1 else total0
  let home_strength : ℚ := (home_stats.form : ℚ) / (total_form : ℚ)
  let away_strength : ℚ := (away_stats.form : ℚ) / (total_form : ℚ)
  let win : WinMarket :=
    { home := home_strength * 100 * (11/10), draw := 25,
      away := away_strength * 100 * (9/10),
      best := if away_strength < home_strength then "Home Win" else "Away Win",
      confidence := max home_strength away_strength * 100 }
  let goals : GoalsMarket :=
    { over := 50, under := 50,
      best := if (5/2 : ℚ) < home_stats.avg_goals + away_stats.avg_goals then
          "Over 2.5"
        else "Under 2.5",
      confidence := 52 }
  let btts : BttsMarket :=
    { yes := (home_stats.btts_rate + away_stats.btts_rate) / 2,
      no := 100 - (home_stats.btts_rate + away_stats.btts_rate) / 2,
      best := if (50 : ℚ) < home_stats.btts_rate then "BTTS Yes" else "BTTS No",
      confidence := 55 }
  { home_team := home_team, away_team := away_team, win := win, goals := goals,
    btts := btts, safest_market := "Match Result", safest_bet := win.best,
    safest_confidence := win.confidence, home_stats := home_stats,
    away_stats := away_stats, using_ml := false }

/-- glitch_engine.predict_match_ml: when the Model Bank is unavailable it
switches to the heuristic; otherwise it queries the three models and picks
the safest glitch by first maximum over the fixed market order. -/
def predict_match_ml (omodels : Option Models) (odf : Option (List MatchRow))
    (home_team away_team : String) : EngineResult :=
  match omodels with
  | none => predict_match_heuristic odf home_team away_team
  | some ms =>
    let home_stats := get_team_stats odf home_team true 5
    let away_stats := get_team_stats odf away_team false 5
    let X := prepare_features home_stats away_stats
    let wp := ms.win X
    let win : WinMarket :=
      { home := wp.1 * 100, draw := wp.2.1 * 100, away := wp.2.2 * 100,
        best := winLabel (argmax3 wp.1 wp.2.1 wp.2.2),
        confidence := max wp.1 (max wp.2.1 wp.2.2) * 100 }
    let gp := ms.goals X
    let goals : GoalsMarket :=
      { under := gp.1 * 100, over := gp.2 * 100,
        best := if gp.1 < gp.2 then "Over 2.5" else "Under 2.5",
        confidence := max gp.1 gp.2 * 100 }
    let bp := ms.btts X
    let btts : BttsMarket :=
      { no := bp.1 * 100, yes := bp.2 * 100,
        best := if bp.1 < bp.2 then "BTTS Yes" else "BTTS No",
        confidence := max bp.1 bp.2 * 100 }
    let safest := pyMax3 ("Match Result", win.best, win.confidence)
      ("Goals", goals.best, goals.confidence) ("BTTS", btts.best, btts.confidence)
    { home_team := home_team, away_team := away_team, win := win, goals := goals,
      btts := btts, safest_market := safest.1, safest_bet := safest.2.1,
      safest_confidence := safest.2.2, home_stats := home_stats,
      away_stats := away_stats, using_ml := true }

end GlitchEngine

/-- A constant Model Bank with well-formed probability vectors, used to
exercise the orchestration on concrete inputs. -/
def msConst : Models :=
  { win := fun _ => (1/2, 1/4, 1/4), goals := fun _ => (1/2, 1/2),
    btts := fun _ => (1/2, 1/2) }

/-- History exhibiting the training/inference window split: team A plays
five home wins, then one away loss, before its next home fixture. -/
def histC1 : List MatchRow :=
  [⟨"A", "B1", 1, 0, .H⟩, ⟨"A", "B2", 1, 0, .H⟩, ⟨"A", "B3", 1, 0, .H⟩,
   ⟨"A", "B4", 1, 0, .H⟩, ⟨"A", "B5", 1, 0, .H⟩, ⟨"C", "A", 1, 0, .H⟩,
   ⟨"A", "D", 0, 0, .D⟩]

/-- Two one-match prefixes followed by different futures, for the
no-look-ahead check. -/
def histC2a : List MatchRow := [⟨"A", "B", 1, 0, .H⟩, ⟨"A", "B", 3, 0, .H⟩]

/-- Same first row as histC2a, different second row. -/
def histC2b : List MatchRow := [⟨"A", "B", 1, 0, .H⟩, ⟨"B", "A", 0, 2, .A⟩]

/-- Tiny history for the training/inference agreement witness. -/
def histC1w : List MatchRow := [⟨"A", "B", 2, 1, .H⟩, ⟨"A", "B", 0, 0, .D⟩]

/-- A one-match history whose known team set is {Arsenal, Liverpool}. -/
def histC3 : List MatchRow := [⟨"Arsenal", "Liverpool", 2, 2, .D⟩]

/-- Three home wins of A over B: A's home form is 9, B's away form is 0. -/
def histC6 : List MatchRow :=
  [⟨"A", "B", 2, 0, .H⟩, ⟨"A", "B", 2, 0, .H⟩, ⟨"A", "B", 2, 0, .H⟩]

/-- Three key Arsenal players reported injured: squad score 100-45 = 55. -/
def injC7 : List Scout.Injury :=
  [⟨"Bukayo Saka", "Knock"⟩, ⟨"Martin Odegaard", "Ankle"⟩, ⟨"Declan Rice", "Back"⟩]

lemma pdTail_length_le (n : Nat) (l : List α) : (pdTail n l).length ≤ n := by
  simp only [pdTail, List.length_drop]
  omega

lemma pdTail_nil (n : Nat) : pdTail n ([] : List α) = [] := by
  simp [pdTail]

lemma matchPoints_le_three (team : String) (m : MatchRow) :
    matchPoints team m ≤ 3 := by
  rcases h : m.ftr <;> simp [matchPoints, h] <;> split_ifs <;> omega

lemma formPoints_le (team : String) (w : List MatchRow) :
    formPoints team w ≤ 3 * w.length := by
  induction w with
  | nil => simp [formPoints]
  | cons m rest ih =>
    have := matchPoints_le_three team m
    simp only [formPoints, List.map_cons, List.sum_cons, List.length_cons] at *
    omega

/-- Claim C9: a team that appears in no row of the history gets exactly the
neutral default stats (form 7, goals 1.3, conceded 1.2, BTTS 50), from both
the predict_glitch and the glitch_engine lookup. -/
theorem unknown_team_gets_default_stats (df : List MatchRow) (team : String)
    (is_home : Bool) (n : Nat)
    (habs : ∀ m ∈ df, m.homeTeam ≠ team ∧ m.awayTeam ≠ team) :
    PredictGlitch.get_team_stats df team is_home n = defaultStats ∧
    GlitchEngine.get_team_stats (some df) team is_home n = defaultStats := by
  have hh : homeMatches df team = [] := by
    rw [homeMatches, List.filter_eq_nil_iff]
    intro m hm
    simp [(habs m hm).1]
  have ha : awayMatches df team = [] := by
    rw [awayMatches, List.filter_eq_nil_iff]
    intro m hm
    simp [(habs m hm).1, (habs m hm).2]
  have ht : teamMatches df team = [] := by
    rw [teamMatches, List.filter_eq_nil_iff]
    intro m hm
    simp [(habs m hm).1, (habs m hm).2]
  constructor
  · simp only [PredictGlitch.get_team_stats, PredictGlitch.venueWindow, hh, ha, ht,
      pdTail_nil]
    split_ifs <;> simp_all
  · simp only [GlitchEngine.get_team_stats, GlitchEngine.venueWindow, hh, ha, ht,
      pdTail_nil]
    split_ifs <;> simp_all

/-- Witness for unknown_team_gets_default_stats at a concrete history. -/
theorem unknown_team_gets_default_stats_witness :
    (∀ m ∈ histC3, m.homeTeam ≠ "Zzz" ∧ m.awayTeam ≠ "Zzz") ∧
    PredictGlitch.get_team_stats histC3 "Zzz" true 5 = defaultStats ∧
    GlitchEngine.get_team_stats (some histC3) "Zzz" true 5 = defaultStats :=
  ⟨by decide, unknown_team_gets_default_stats histC3 "Zzz" true 5 (by decide)⟩

/-- Claim C8: the selected trailing window never exceeds n rows; on a
non-empty window the returned form is the sum over the window of each
match's 3/1/0 points, judged by whether the team was the home side in that
row; hence the form lies in the interval from 0 to 3n. Both lookup
variants are covered. -/
theorem form_points_window_bounds (df : List MatchRow) (team : String)
    (is_home : Bool) (n : Nat) :
    (PredictGlitch.venueWindow df team is_home n).length ≤ n ∧
    (GlitchEngine.venueWindow df team is_home n).length ≤ n ∧
    (PredictGlitch.venueWindow df team is_home n ≠ [] →
      (PredictGlitch.get_team_stats df team is_home n).form
        = formPoints team (PredictGlitch.venueWindow df team is_home n)) ∧
    (GlitchEngine.venueWindow df team is_home n ≠ [] →
      (GlitchEngine.get_team_stats (some df) team is_home n).form
        = formPoints team (GlitchEngine.venueWindow df team is_home n)) ∧
    0 ≤ formPoints team (PredictGlitch.venueWindow df team is_home n) ∧
    formPoints team (PredictGlitch.venueWindow df team is_home n) ≤ 3 * n ∧
    formPoints team (GlitchEngine.venueWindow df team is_home n) ≤ 3 * n ∧
    (∀ m ∈ PredictGlitch.venueWindow df team is_home n,
      matchPoints team m =
        if (if m.homeTeam == team then m.ftr = .H else m.ftr = .A) then 3
        else if m.ftr = .D then 1 else 0) := by
  have hlp : (PredictGlitch.venueWindow df team is_home n).length ≤ n := by
    simp only [PredictGlitch.venueWindow]
    split_ifs <;> apply pdTail_length_le
  have hle : (GlitchEngine.venueWindow df team is_home n).length ≤ n := by
    simp only [GlitchEngine.venueWindow]
    split_ifs <;> apply pdTail_length_le
  refine ⟨hlp, hle, ?_, ?_, Nat.zero_le _, ?_, ?_, ?_⟩
  · intro hne
    have hne' : (PredictGlitch.venueWindow df team is_home n).length ≠ 0 := by
      simpa [List.length_eq_zero] using hne
    simp [PredictGlitch.get_team_stats, hne']
  · intro hne
    have hne' : (GlitchEngine.venueWindow df team is_home n).length ≠ 0 := by
      simpa [List.length_eq_zero] using hne
    simp [GlitchEngine.get_team_stats, hne']
  · calc formPoints team (PredictGlitch.venueWindow df team is_home n)
        ≤ 3 * (PredictGlitch.venueWindow df team is_home n).length :=
          formPoints_le team _
      _ ≤ 3 * n := by omega
  · calc formPoints team (GlitchEngine.venueWindow df team is_home n)
        ≤ 3 * (GlitchEngine.venueWindow df team is_home n).length :=
          formPoints_le team _
      _ ≤ 3 * n := by omega
  · intro m _
    rcases h : m.ftr <;> simp [matchPoints, h]

/-- Witness for form_points_window_bounds at a one-match history. -/
theorem form_points_window_bounds_witness :
    (PredictGlitch.venueWindow histC3 "Arsenal" true 5).length ≤ 5 ∧
    (GlitchEngine.venueWindow histC3 "Arsenal" true 5).length ≤ 5 ∧
    (PredictGlitch.venueWindow histC3 "Arsenal" true 5 ≠ [] →
      (PredictGlitch.get_team_stats histC3 "Arsenal" true 5).form
        = formPoints "Arsenal" (PredictGlitch.venueWindow histC3 "Arsenal" true 5)) ∧
    (GlitchEngine.venueWindow histC3 "Arsenal" true 5 ≠ [] →
      (GlitchEngine.get_team_stats (some histC3) "Arsenal" true 5).form
        = formPoints "Arsenal" (GlitchEngine.venueWindow histC3 "Arsenal" true 5)) ∧
    0 ≤ formPoints "Arsenal" (PredictGlitch.venueWindow histC3 "Arsenal" true 5) ∧
    formPoints "Arsenal" (PredictGlitch.venueWindow histC3 "Arsenal" true 5) ≤ 3 * 5 ∧
    formPoints "Arsenal" (GlitchEngine.venueWindow histC3 "Arsenal" true 5) ≤ 3 * 5 ∧
    (∀ m ∈ PredictGlitch.venueWindow histC3 "Arsenal" true 5,
      matchPoints "Arsenal" m =
        if (if m.homeTeam == "Arsenal" then m.ftr = .H else m.ftr = .A) then 3
        else if m.ftr = .D then 1 else 0) :=
  form_points_window_bounds histC3 "Arsenal" true 5

lemma foldl_sub_sum (f : Scout.Injury → Int) (l : List Scout.Injury) :
    ∀ s : Int, l.foldl (fun a i => a - f i) s = s - (l.map f).sum := by
  induction l with
  | nil => simp
  | cons i rest ih =>
    intro s
    simp only [List.foldl_cons, List.map_cons, List.sum_cons, ih]
    ring

/-- Claim C10: the squad-strength score always lies in the interval from 0
to 100 (it starts at 100, each injury only subtracts, and the result is
clamped at 0), and the status bands are exactly STRONG for score at least
85, MODERATE for score in 70..84, WEAK below 70. -/
theorem squad_strength_score_and_status (team_id : Nat)
    (injuries : List Scout.Injury) :
    0 ≤ (Scout.calculate_squad_strength team_id injuries).score ∧
    (Scout.calculate_squad_strength team_id injuries).score ≤ 100 ∧
    ((Scout.calculate_squad_strength team_id injuries).status = "STRONG" ↔
      85 ≤ (Scout.calculate_squad_strength team_id injuries).score) ∧
    ((Scout.calculate_squad_strength team_id injuries).status = "MODERATE" ↔
      (70 ≤ (Scout.calculate_squad_strength team_id injuries).score ∧
        (Scout.calculate_squad_strength team_id injuries).score < 85)) ∧
    ((Scout.calculate_squad_strength team_id injuries).status = "WEAK" ↔
      (Scout.calculate_squad_strength team_id injuries).score < 70) := by
  have hsum : 0 ≤ ((injuries.map
      (Scout.injuryDeduction (Scout.key_players_db team_id))).sum) := by
    apply List.sum_nonneg
    intro x hx
    rcases List.mem_map.1 hx with ⟨inj, _, rfl⟩
    unfold Scout.injuryDeduction
    split_ifs <;> norm_num
  simp only [Scout.calculate_squad_strength, foldl_sub_sum]
  constructor
  · exact le_max_left 0 _
  constructor
  · apply max_le <;> omega
  split_ifs with h1 h2
  · refine ⟨by simp [h1], ?_, ?_⟩
    · exact ⟨fun hs => absurd hs (by decide), fun hs => by exfalso; omega⟩
    · exact ⟨fun hs => absurd hs (by decide), fun hs => by exfalso; omega⟩
  · refine ⟨?_, ?_, ?_⟩
    · exact ⟨fun hs => absurd hs (by decide), fun hs => absurd hs h1⟩
    · exact ⟨fun _ => ⟨h2, by omega⟩, fun _ => rfl⟩
    · exact ⟨fun hs => absurd hs (by decide), fun hs => by exfalso; omega⟩
  · refine ⟨?_, ?_, ?_⟩
    · exact ⟨fun hs => absurd hs (by decide), fun hs => absurd hs h1⟩
    · exact ⟨fun hs => absurd hs (by decide), fun hs => by exfalso; omega⟩
    · exact ⟨fun _ => by omega, fun _ => rfl⟩

/-- Witness for squad_strength_score_and_status at a concrete injury list. -/
theorem squad_strength_score_and_status_witness :
    0 ≤ (Scout.calculate_squad_strength 42 injC7).score ∧
    (Scout.calculate_squad_strength 42 injC7).score ≤ 100 ∧
    ((Scout.calculate_squad_strength 42 injC7).status = "STRONG" ↔
      85 ≤ (Scout.calculate_squad_strength 42 injC7).score) ∧
    ((Scout.calculate_squad_strength 42 injC7).status = "MODERATE" ↔
      (70 ≤ (Scout.calculate_squad_strength 42 injC7).score ∧
        (Scout.calculate_squad_strength 42 injC7).score < 85)) ∧
    ((Scout.calculate_squad_strength 42 injC7).status = "WEAK" ↔
      (Scout.calculate_squad_strength 42 injC7).score < 70) :=
  squad_strength_score_and_status 42 injC7

/-- Claim C7: the gate reports should_skip exactly when the minimum of the
two sides' squad scores is below 70, and whenever it does, the predictor
returns the skip outcome immediately, carrying the gate's skip reason and
no market predictions (the skip constructor has no market fields). -/
theorem squad_gate_skip_behaviour (hid aid : Option Nat)
    (hinj ainj : List Scout.Injury) :
    ((Scout.get_team_news hid aid hinj ainj).should_skip = true ↔
      min (Scout.get_team_news hid aid hinj ainj).home.score
        (Scout.get_team_news hid aid hinj ainj).away.score < 70) ∧
    (∀ (ms : Models) (df : List MatchRow) (home_team away_team : String),
      (Scout.get_team_news hid aid hinj ainj).should_skip = true →
      PredictGlitch.predict_all_markets (some ms) (some df)
          (some (Scout.get_team_news hid aid hinj ainj)) home_team away_team
        = PredictGlitch.Outcome.skippedMatch home_team away_team
            (Scout.get_team_news hid aid hinj ainj).skip_reason
            (PredictGlitch.get_team_stats df home_team true 5)
            (PredictGlitch.get_team_stats df away_team false 5)) := by
  constructor
  · simp only [Scout.get_team_news]
    split_ifs with h h2
    · exact iff_of_true rfl h
    · exact iff_of_true rfl h
    · exact iff_of_false (by simp) h
  · intro ms df home_team away_team hskip
    simp [PredictGlitch.predict_all_markets, hskip]

/-- Witness for squad_gate_skip_behaviour: three key Arsenal injuries push
the score to 55, the gate skips, the predictor returns the skip outcome. -/
theorem squad_gate_skip_behaviour_witness :
    (Scout.get_team_news (some 42) none injC7 []).should_skip = true ∧
    PredictGlitch.predict_all_markets (some msConst) (some histC3)
        (some (Scout.get_team_news (some 42) none injC7 [])) "Arsenal" "Liverpool"
      = PredictGlitch.Outcome.skippedMatch "Arsenal" "Liverpool"
          (Scout.get_team_news (some 42) none injC7 []).skip_reason
          (PredictGlitch.get_team_stats histC3 "Arsenal" true 5)
          (PredictGlitch.get_team_stats histC3 "Liverpool" false 5) :=
  ⟨by decide,
    (squad_gate_skip_behaviour (some 42) none injC7 []).2 msConst histC3
      "Arsenal" "Liverpool" (by decide)⟩

lemma rollingLoop_getElem (n : Nat) :
    ∀ (df : List MatchRow) (st : TrainGlitch.TrackState) (i : Nat),
    (TrainGlitch.rollingLoop n st df)[i]? =
      (df[i]?).map (fun m =>
        TrainGlitch.computeRow (TrainGlitch.stateAfter st (df.take i)) n m) := by
  intro df
  induction df with
  | nil => intro st i; simp [TrainGlitch.rollingLoop]
  | cons m rest ih =>
    intro st i
    cases i with
    | zero => simp [TrainGlitch.rollingLoop, TrainGlitch.stateAfter]
    | succ j =>
      simp only [TrainGlitch.rollingLoop, List.getElem?_cons_succ, List.take_succ_cons,
        TrainGlitch.stateAfter]
      exact ih (TrainGlitch.updateState st m) j

/-- Claim C2: training features are leakage-free. The features written for
row i are a function of the strictly earlier rows only (second conjunct:
they come from the tracking state folded over the first i rows, which is
updated with a row's result only after that row's features were computed),
so any two histories agreeing up to and including row i get identical
features at i (first conjunct). -/
theorem training_no_lookahead (n i : Nat) (h₁ h₂ : List MatchRow)
    (hpre : h₁.take (i + 1) = h₂.take (i + 1)) :
    (TrainGlitch.calculate_rolling_stats n h₁)[i]? =
      (TrainGlitch.calculate_rolling_stats n h₂)[i]? ∧
    (TrainGlitch.calculate_rolling_stats n h₁)[i]? =
      (h₁[i]?).map (fun m =>
        TrainGlitch.computeRow
          (TrainGlitch.stateAfter TrainGlitch.initState (h₁.take i)) n m) := by
  have hget : h₁[i]? = h₂[i]? := by
    have e1 : (h₁.take (i + 1))[i]? = h₁[i]? := by
      rw [List.getElem?_take]
      simp
    have e2 : (h₂.take (i + 1))[i]? = h₂[i]? := by
      rw [List.getElem?_take]
      simp
    rw [← e1, ← e2, hpre]
  have htk : h₁.take i = h₂.take i := by
    have : (h₁.take (i + 1)).take i = (h₂.take (i + 1)).take i := by rw [hpre]
    simpa [List.take_take, Nat.min_le_left, Nat.le_succ] using this
  constructor
  · rw [TrainGlitch.calculate_rolling_stats, TrainGlitch.calculate_rolling_stats,
      rollingLoop_getElem, rollingLoop_getElem, hget, htk]
  · rw [TrainGlitch.calculate_rolling_stats, rollingLoop_getElem]

/-- Witness for training_no_lookahead: two histories sharing the first row
and diverging afterwards give identical features at row 0. -/
theorem training_no_lookahead_witness :
    histC2a.take 1 = histC2b.take 1 ∧
    ((TrainGlitch.calculate_rolling_stats 5 histC2a)[0]? =
      (TrainGlitch.calculate_rolling_stats 5 histC2b)[0]? ∧
    (TrainGlitch.calculate_rolling_stats 5 histC2a)[0]? =
      (histC2a[0]?).map (fun m =>
        TrainGlitch.computeRow
          (TrainGlitch.stateAfter TrainGlitch.initState (histC2a.take 0)) 5 m)) :=
  ⟨by decide, training_no_lookahead 5 0 histC2a histC2b (by decide)⟩

lemma pyMax3_conf (x y z : String × String × ℚ) :
    (pyMax3 x y z).2.2 = max x.2.2 (max y.2.2 z.2.2) := by
  simp only [pyMax3]
  split_ifs with h1 h2 h3 <;>
    (simp [max_def]; split_ifs <;> linarith)

lemma pyMax3_market (x y z : String × String × ℚ) :
    (pyMax3 x y z).1 =
      if y.2.2 ≤ x.2.2 ∧ z.2.2 ≤ x.2.2 then x.1
      else if z.2.2 ≤ y.2.2 then y.1 else z.1 := by
  simp only [pyMax3]
  split_ifs with h1 h2 h3 h4 h5 h6 h7 <;> first
    | rfl
    | (exfalso; push_neg at *; first | linarith | (try simp_all; linarith))

/-- Claim C4: the non-skip result of predict_all_markets carries a safest
glitch whose confidence is the maximum of the three markets' best
probabilities, and whose market is picked by first maximum in the fixed
order win, goals, btts; the same selection rule holds in
glitch_engine.predict_match_ml with its order Match Result, Goals, BTTS. -/
theorem safest_glitch_is_max_confidence (ms : Models) (df : List MatchRow)
    (odf : Option (List MatchRow)) (home_team away_team : String) :
    PredictGlitch.predict_all_markets (some ms) (some df) none home_team away_team
      = PredictGlitch.Outcome.prediction
          (PredictGlitch.buildPrediction ms df home_team away_team) ∧
    (PredictGlitch.buildPrediction ms df home_team away_team).safest_confidence
      = max (PredictGlitch.buildPrediction ms df home_team away_team).win.best_prob
          (max (PredictGlitch.buildPrediction ms df home_team away_team).goals.best_prob
            (PredictGlitch.buildPrediction ms df home_team away_team).btts.best_prob) ∧
    (PredictGlitch.buildPrediction ms df home_team away_team).safest_market
      = (if (PredictGlitch.buildPrediction ms df home_team away_team).goals.best_prob
            ≤ (PredictGlitch.buildPrediction ms df home_team away_team).win.best_prob ∧
           (PredictGlitch.buildPrediction ms df home_team away_team).btts.best_prob
            ≤ (PredictGlitch.buildPrediction ms df home_team away_team).win.best_prob
         then "win"
         else if (PredictGlitch.buildPrediction ms df home_team away_team).btts.best_prob
            ≤ (PredictGlitch.buildPrediction ms df home_team away_team).goals.best_prob
         then "goals" else "btts") ∧
    (GlitchEngine.predict_match_ml (some ms) odf home_team away_team).safest_confidence
      = max (GlitchEngine.predict_match_ml (some ms) odf home_team away_team).win.confidence
          (max (GlitchEngine.predict_match_ml (some ms) odf home_team away_team).goals.confidence
            (GlitchEngine.predict_match_ml (some ms) odf home_team away_team).btts.confidence) ∧
    (GlitchEngine.predict_match_ml (some ms) odf home_team away_team).safest_market
      = (if (GlitchEngine.predict_match_ml (some ms) odf home_team away_team).goals.confidence
            ≤ (GlitchEngine.predict_match_ml (some ms) odf home_team away_team).win.confidence ∧
           (GlitchEngine.predict_match_ml (some ms) odf home_team away_team).btts.confidence
            ≤ (GlitchEngine.predict_match_ml (some ms) odf home_team away_team).win.confidence
         then "Match Result"
         else if (GlitchEngine.predict_match_ml (some ms) odf home_team away_team).btts.confidence
            ≤ (GlitchEngine.predict_match_ml (some ms) odf home_team away_team).goals.confidence
         then "Goals" else "BTTS") := by
  refine ⟨rfl, ?_, ?_, ?_, ?_⟩
  · exact pyMax3_conf _ _ _
  · exact pyMax3_market _ _ _
  · exact pyMax3_conf _ _ _
  · exact pyMax3_market _ _ _

/-- Counterexample to claim C5 as stated: on the heuristic fallback path
the result-market distribution does not sum to 100. With an empty loaded
history both sides get the neutral form 7, so the home/draw/away
percentages are 55, 25 and 45, summing to 125. -/
theorem heuristic_win_market_not_normalized :
    (GlitchEngine.predict_match_heuristic (some []) "A" "B").win.home
      + (GlitchEngine.predict_match_heuristic (some []) "A" "B").win.draw
      + (GlitchEngine.predict_match_heuristic (some []) "A" "B").win.away
      = 125 ∧ (125 : ℚ) ≠ 100 := by
  constructor
  · norm_num [GlitchEngine.predict_match_heuristic, GlitchEngine.heurHomeStats,
      GlitchEngine.heurAwayStats, GlitchEngine.get_team_stats,
      GlitchEngine.venueWindow, homeMatches, awayMatches, teamMatches, pdTail,
      defaultStats]
  · norm_num

/-- Claim C5 amended: in the model-backed paths every market distribution
sums to 100 whenever the model's probability vector sums to 1 (both in
predict_glitch and in glitch_engine); on the heuristic fallback path the
goals and BTTS distributions sum to 100 unconditionally, but the
result-market distribution need not (see the counterexample). -/
theorem market_distributions_sum (ms : Models) (df : List MatchRow)
    (odf : Option (List MatchRow)) (home_team away_team : String) :
    (((ms.win (prepare_features (PredictGlitch.get_team_stats df home_team true 5)
          (PredictGlitch.get_team_stats df away_team false 5))).1
        + (ms.win (prepare_features (PredictGlitch.get_team_stats df home_team true 5)
          (PredictGlitch.get_team_stats df away_team false 5))).2.1
        + (ms.win (prepare_features (PredictGlitch.get_team_stats df home_team true 5)
          (PredictGlitch.get_team_stats df away_team false 5))).2.2 = 1) →
      (((PredictGlitch.buildPrediction ms df home_team away_team).win.probabilities.map
          Prod.snd).sum = 100)) ∧
    (((ms.goals (prepare_features (PredictGlitch.get_team_stats df home_team true 5)
          (PredictGlitch.get_team_stats df away_team false 5))).1
        + (ms.goals (prepare_features (PredictGlitch.get_team_stats df home_team true 5)
          (PredictGlitch.get_team_stats df away_team false 5))).2 = 1) →
      (((PredictGlitch.buildPrediction ms df home_team away_team).goals.probabilities.map
          Prod.snd).sum = 100)) ∧
    (((ms.btts (prepare_features (PredictGlitch.get_team_stats df home_team true 5)
          (PredictGlitch.get_team_stats df away_team false 5))).1
        + (ms.btts (prepare_features (PredictGlitch.get_team_stats df home_team true 5)
          (PredictGlitch.get_team_stats df away_team false 5))).2 = 1) →
      (((PredictGlitch.buildPrediction ms df home_team away_team).btts.probabilities.map
          Prod.snd).sum = 100)) ∧
    (((ms.win (prepare_features (GlitchEngine.get_team_stats odf home_team true 5)
          (GlitchEngine.get_team_stats odf away_team false 5))).1
        + (ms.win (prepare_features (GlitchEngine.get_team_stats odf home_team true 5)
          (GlitchEngine.get_team_stats odf away_team false 5))).2.1
        + (ms.win (prepare_features (GlitchEngine.get_team_stats odf home_team true 5)
          (GlitchEngine.get_team_stats odf away_team false 5))).2.2 = 1) →
      ((GlitchEngine.predict_match_ml (some ms) odf home_team away_team).win.home
        + (GlitchEngine.predict_match_ml (some ms) odf home_team away_team).win.draw
        + (GlitchEngine.predict_match_ml (some ms) odf home_team away_team).win.away
        = 100)) ∧
    ((GlitchEngine.predict_match_heuristic odf home_team away_team).goals.over
      + (GlitchEngine.predict_match_heuristic odf home_team away_team).goals.under
      = 100) ∧
    ((GlitchEngine.predict_match_heuristic odf home_team away_team).btts.yes
      + (GlitchEngine.predict_match_heuristic odf home_team away_team).btts.no
      = 100) := by
  refine ⟨?_, ?_, ?_, ?_, ?_, ?_⟩
  · intro h
    simp only [PredictGlitch.buildPrediction, List.map_cons, List.map_nil,
      List.sum_cons, List.sum_nil]
    linarith
  · intro h
    simp only [PredictGlitch.buildPrediction, List.map_cons, List.map_nil,
      List.sum_cons, List.sum_nil]
    linarith
  · intro h
    simp only [PredictGlitch.buildPrediction, List.map_cons, List.map_nil,
      List.sum_cons, List.sum_nil]
    linarith
  · intro h
    simp only [GlitchEngine.predict_match_ml]
    linarith
  · simp only [GlitchEngine.predict_match_heuristic]
    ring
  · simp only [GlitchEngine.predict_match_heuristic]
    ring

/-- Witness for market_distributions_sum: the constant Model Bank has
probability vectors summing to 1, and the sums evaluate to 100. -/
theorem market_distributions_sum_witness :
    ((msConst.win (prepare_features (PredictGlitch.get_team_stats histC3 "Arsenal" true 5)
        (PredictGlitch.get_team_stats histC3 "Liverpool" false 5))).1
      + (msConst.win (prepare_features (PredictGlitch.get_team_stats histC3 "Arsenal" true 5)
        (PredictGlitch.get_team_stats histC3 "Liverpool" false 5))).2.1
      + (msConst.win (prepare_features (PredictGlitch.get_team_stats histC3 "Arsenal" true 5)
        (PredictGlitch.get_team_stats histC3 "Liverpool" false 5))).2.2 = 1) ∧
    (((PredictGlitch.buildPrediction msConst histC3 "Arsenal" "Liverpool").win.probabilities.map
        Prod.snd).sum = 100) ∧
    ((GlitchEngine.predict_match_heuristic (some histC3) "Arsenal" "Liverpool").goals.over
      + (GlitchEngine.predict_match_heuristic (some histC3) "Arsenal" "Liverpool").goals.under
      = 100) :=
  ⟨by norm_num [msConst],
    (market_distributions_sum msConst histC3 (some histC3) "Arsenal" "Liverpool").1
      (by norm_num [msConst]),
    (market_distributions_sum msConst histC3 (some histC3) "Arsenal" "Liverpool").2.2.2.2.1⟩

lemma conf_bounds (hf af : ℕ) :
    max ((hf : ℚ) / ((if hf + af = 0 then 1 else hf + af : ℕ) : ℚ))
        ((af : ℚ) / ((if hf + af = 0 then 1 else hf + af : ℕ) : ℚ)) * 100 ≤ 100 ∧
    (0 < hf + af →
      50 ≤ max ((hf : ℚ) / ((if hf + af = 0 then 1 else hf + af : ℕ) : ℚ))
        ((af : ℚ) / ((if hf + af = 0 then 1 else hf + af : ℕ) : ℚ)) * 100) := by
  by_cases h0 : hf + af = 0
  · have h1 : hf = 0 := by omega
    have h2 : af = 0 := by omega
    subst h1
    simp_all
  · simp only [h0, if_false]
    have hpos : (0 : ℚ) < ((hf + af : ℕ) : ℚ) := by
      exact_mod_cast Nat.pos_of_ne_zero h0
    have hh : (hf : ℚ) / ((hf + af : ℕ) : ℚ) ≤ 1 := by
      rw [div_le_one hpos]
      push_cast
      linarith [Nat.cast_nonneg (α := ℚ) af]
    have ha : (af : ℚ) / ((hf + af : ℕ) : ℚ) ≤ 1 := by
      rw [div_le_one hpos]
      push_cast
      linarith [Nat.cast_nonneg (α := ℚ) hf]
    constructor
    · have := max_le hh ha
      linarith
    · intro _
      have hsum : (hf : ℚ) / ((hf + af : ℕ) : ℚ) + (af : ℚ) / ((hf + af : ℕ) : ℚ) = 1 := by
        rw [div_add_div_same, div_eq_one_iff_eq (ne_of_gt hpos)]
        push_cast
        ring
      have h1 := le_max_left ((hf : ℚ) / ((hf + af : ℕ) : ℚ))
        ((af : ℚ) / ((hf + af : ℕ) : ℚ))
      have h2 := le_max_right ((hf : ℚ) / ((hf + af : ℕ) : ℚ))
        ((af : ℚ) / ((hf + af : ℕ) : ℚ))
      linarith

/-- Counterexample to claim C6 as stated: with models absent the fallback
does run, but its result-market confidence is not confined to 50-60
percent. After three home wins of A over B, A's form share is 1, so the
reported confidence is 100. -/
theorem heuristic_confidence_exceeds_sixty :
    (GlitchEngine.predict_match_ml none (some histC6) "A" "B").using_ml = false ∧
    (GlitchEngine.predict_match_ml none (some histC6) "A" "B").win.confidence = 100 ∧
    ¬((GlitchEngine.predict_match_ml none (some histC6) "A" "B").win.confidence ≤ 60) := by
  have hA : (GlitchEngine.get_team_stats (some histC6) "A" true 5).form = 9 := by decide
  have hB : (GlitchEngine.get_team_stats (some histC6) "B" false 5).form = 0 := by decide
  have hconf : (GlitchEngine.predict_match_ml none (some histC6) "A" "B").win.confidence
      = 100 := by
    simp only [GlitchEngine.predict_match_ml, GlitchEngine.predict_match_heuristic,
      GlitchEngine.heurHomeStats, GlitchEngine.heurAwayStats, hA, hB]
    norm_num [max_def]
  refine ⟨rfl, hconf, ?_⟩
  rw [hconf]
  norm_num

/-- Claim C6 amended: when the model artifacts are absent predict_match_ml
recovers by returning exactly the heuristic result, which is marked
using_ml = false; the goals and BTTS confidences are the fixed 52 and 55
(inside 50-60), but the result-market confidence — which is also the
reported safest confidence — equals 100 times the larger form share: at
most 100, and at least 50 only when the combined form is positive. -/
theorem models_unavailable_heuristic_fallback (odf : Option (List MatchRow))
    (home_team away_team : String) :
    GlitchEngine.predict_match_ml none odf home_team away_team
      = GlitchEngine.predict_match_heuristic odf home_team away_team ∧
    (GlitchEngine.predict_match_heuristic odf home_team away_team).using_ml = false ∧
    (GlitchEngine.predict_match_heuristic odf home_team away_team).goals.confidence = 52 ∧
    (GlitchEngine.predict_match_heuristic odf home_team away_team).btts.confidence = 55 ∧
    (GlitchEngine.predict_match_heuristic odf home_team away_team).safest_confidence
      = (GlitchEngine.predict_match_heuristic odf home_team away_team).win.confidence ∧
    (GlitchEngine.predict_match_heuristic odf home_team away_team).win.confidence ≤ 100 ∧
    (0 < (GlitchEngine.heurHomeStats odf home_team).form
        + (GlitchEngine.heurAwayStats odf away_team).form →
      50 ≤ (GlitchEngine.predict_match_heuristic odf home_team away_team).win.confidence)
    := by
  refine ⟨rfl, rfl, rfl, rfl, rfl, ?_, ?_⟩
  · exact (conf_bounds (GlitchEngine.heurHomeStats odf home_team).form
      (GlitchEngine.heurAwayStats odf away_team).form).1
  · exact (conf_bounds (GlitchEngine.heurHomeStats odf home_team).form
      (GlitchEngine.heurAwayStats odf away_team).form).2

/-- Witness for models_unavailable_heuristic_fallback at a concrete
history with positive combined form. -/
theorem models_unavailable_heuristic_fallback_witness :
    (0 < (GlitchEngine.heurHomeStats (some histC3) "Arsenal").form
        + (GlitchEngine.heurAwayStats (some histC3) "Liverpool").form) ∧
    GlitchEngine.predict_match_ml none (some histC3) "Arsenal" "Liverpool"
      = GlitchEngine.predict_match_heuristic (some histC3) "Arsenal" "Liverpool" ∧
    50 ≤ (GlitchEngine.predict_match_heuristic (some histC3) "Arsenal" "Liverpool").win.confidence :=
  ⟨by decide,
    (models_unavailable_heuristic_fallback (some histC3) "Arsenal" "Liverpool").1,
    (models_unavailable_heuristic_fallback (some histC3) "Arsenal" "Liverpool").2.2.2.2.2.2
      (by decide)⟩

/-- Claim C3, demonstration of the divergence: predict_all_markets performs
no validation of the team names. Called with a home team that appears
nowhere in the history, it does not fail fast but returns a full
prediction whose home stats are the fabricated empty-history defaults.
(Validation exists only in the CLI entry point of predict_glitch.py; the
bot front end calls predict_all_markets directly.) -/
theorem unknown_team_not_rejected :
    knownTeam histC3 "Zzz" = false ∧
    PredictGlitch.predict_all_markets (some msConst) (some histC3) none
        "Zzz" "Liverpool"
      = PredictGlitch.Outcome.prediction
          (PredictGlitch.buildPrediction msConst histC3 "Zzz" "Liverpool") ∧
    (PredictGlitch.buildPrediction msConst histC3 "Zzz" "Liverpool").home_stats
      = defaultStats :=
  ⟨by decide, rfl, rfl⟩

lemma stateAfter_field (fld : TrainGlitch.TrackState → String → List Nat)
    (keyf : MatchRow → String) (valf : MatchRow → Nat)
    (hupd : ∀ st m, fld (TrainGlitch.updateState st m)
      = TrainGlitch.appendAt (fld st) (keyf m) (valf m)) :
    ∀ (p : List MatchRow) (st : TrainGlitch.TrackState),
    fld (TrainGlitch.stateAfter st p)
      = p.foldl (fun g m => TrainGlitch.appendAt g (keyf m) (valf m)) (fld st) := by
  intro p
  induction p with
  | nil => intro st; rfl
  | cons m rest ih =>
    intro st
    simp only [TrainGlitch.stateAfter, List.foldl_cons, ← hupd]
    exact ih (TrainGlitch.updateState st m)

lemma appendAt_foldl (keyf : MatchRow → String) (valf : MatchRow → Nat) :
    ∀ (p : List MatchRow) (g : String → List Nat) (t : String),
    (p.foldl (fun acc m => TrainGlitch.appendAt acc (keyf m) (valf m)) g) t
      = g t ++ (p.filter (fun m => keyf m == t)).map valf := by
  intro p
  induction p with
  | nil => intro g t; simp
  | cons m rest ih =>
    intro g t
    simp only [List.foldl_cons, List.filter_cons]
    rw [ih]
    by_cases h : keyf m = t
    · simp [TrainGlitch.appendAt, h]
    · have h2 : ¬(t = keyf m) := fun hc => h hc.symm
      simp [TrainGlitch.appendAt, h, h2]

lemma state_home_goals (p : List MatchRow) (t : String) :
    (TrainGlitch.stateAfter TrainGlitch.initState p).home_goals t
      = (homeMatches p t).map MatchRow.fthg := by
  rw [stateAfter_field (fun st => st.home_goals) (fun m => m.homeTeam)
    (fun m => m.fthg) (fun _ _ => rfl) p TrainGlitch.initState, appendAt_foldl]
  simp [TrainGlitch.initState, homeMatches]

lemma state_home_conceded (p : List MatchRow) (t : String) :
    (TrainGlitch.stateAfter TrainGlitch.initState p).home_conceded t
      = (homeMatches p t).map MatchRow.ftag := by
  rw [stateAfter_field (fun st => st.home_conceded) (fun m => m.homeTeam)
    (fun m => m.ftag) (fun _ _ => rfl) p TrainGlitch.initState, appendAt_foldl]
  simp [TrainGlitch.initState, homeMatches]

lemma state_home_btts (p : List MatchRow) (t : String) :
    (TrainGlitch.stateAfter TrainGlitch.initState p).home_btts t
      = (homeMatches p t).map (fun m => if bttsBit m then 1 else 0) := by
  rw [stateAfter_field (fun st => st.home_btts) (fun m => m.homeTeam)
    (fun m => if bttsBit m then 1 else 0) (fun _ _ => rfl) p TrainGlitch.initState,
    appendAt_foldl]
  simp [TrainGlitch.initState, homeMatches]

lemma state_away_goals (p : List MatchRow) (t : String) :
    (TrainGlitch.stateAfter TrainGlitch.initState p).away_goals t
      = (awayMatches p t).map MatchRow.ftag := by
  rw [stateAfter_field (fun st => st.away_goals) (fun m => m.awayTeam)
    (fun m => m.ftag) (fun _ _ => rfl) p TrainGlitch.initState, appendAt_foldl]
  simp [TrainGlitch.initState, awayMatches]

lemma state_away_conceded (p : List MatchRow) (t : String) :
    (TrainGlitch.stateAfter TrainGlitch.initState p).away_conceded t
      = (awayMatches p t).map MatchRow.fthg := by
  rw [stateAfter_field (fun st => st.away_conceded) (fun m => m.awayTeam)
    (fun m => m.fthg) (fun _ _ => rfl) p TrainGlitch.initState, appendAt_foldl]
  simp [TrainGlitch.initState, awayMatches]

lemma state_away_btts (p : List MatchRow) (t : String) :
    (TrainGlitch.stateAfter TrainGlitch.initState p).away_btts t
      = (awayMatches p t).map (fun m => if bttsBit m then 1 else 0) := by
  rw [stateAfter_field (fun st => st.away_btts) (fun m => m.awayTeam)
    (fun m => if bttsBit m then 1 else 0) (fun _ _ => rfl) p TrainGlitch.initState,
    appendAt_foldl]
  simp [TrainGlitch.initState, awayMatches]

lemma pyLast_map_eq (n : Nat) (hn : n ≠ 0) (l : List MatchRow) (f : MatchRow → Nat) :
    TrainGlitch.pyLast n (l.map f) = (pdTail n l).map f := by
  simp [TrainGlitch.pyLast, pdTail, hn, List.map_drop]

lemma listMean_btts (l : List MatchRow) :
    listMean (l.map (fun m => if bttsBit m then 1 else 0))
      = (l.countP bttsBit : ℚ) / (l.length : ℚ) := by
  have hsum : (l.map (fun m => if bttsBit m then (1 : Nat) else 0)).sum
      = l.countP bttsBit := by
    induction l with
    | nil => simp
    | cons m rest ih =>
      by_cases h : bttsBit m <;> simp [List.countP_cons, h, ih, Nat.add_comm]
  simp [listMean, hsum]

lemma pdTail_length_eq (n : Nat) (l : List α) (hlen : n ≤ l.length) :
    (pdTail n l).length = n := by
  simp only [pdTail, List.length_drop]
  omega

lemma predict_goal_fields_home (p : List MatchRow) (t : String) (n : Nat)
    (hn : 0 < n) (hlen : n ≤ (homeMatches p t).length) :
    (PredictGlitch.get_team_stats p t true n).avg_goals
        = listMean ((pdTail n (homeMatches p t)).map MatchRow.fthg) ∧
    (PredictGlitch.get_team_stats p t true n).avg_conceded
        = listMean ((pdTail n (homeMatches p t)).map MatchRow.ftag) ∧
    (PredictGlitch.get_team_stats p t true n).btts_rate
        = ((pdTail n (homeMatches p t)).countP bttsBit : ℚ)
            / ((pdTail n (homeMatches p t)).length : ℚ) * 100 := by
  have hlw : (pdTail n (homeMatches p t)).length = n := pdTail_length_eq n _ hlen
  refine ⟨?_, ?_, ?_⟩ <;>
    simp [PredictGlitch.get_team_stats, PredictGlitch.venueWindow, homeGoalsPart,
      hlw, hn.ne']

lemma predict_goal_fields_away (p : List MatchRow) (t : String) (n : Nat)
    (hn : 0 < n) (hlen : n ≤ (awayMatches p t).length) :
    (PredictGlitch.get_team_stats p t false n).avg_goals
        = listMean ((pdTail n (awayMatches p t)).map MatchRow.ftag) ∧
    (PredictGlitch.get_team_stats p t false n).avg_conceded
        = listMean ((pdTail n (awayMatches p t)).map MatchRow.fthg) ∧
    (PredictGlitch.get_team_stats p t false n).btts_rate
        = ((pdTail n (awayMatches p t)).countP bttsBit : ℚ)
            / ((pdTail n (awayMatches p t)).length : ℚ) * 100 := by
  have hlw : (pdTail n (awayMatches p t)).length = n := pdTail_length_eq n _ hlen
  refine ⟨?_, ?_, ?_⟩ <;>
    simp [PredictGlitch.get_team_stats, PredictGlitch.venueWindow, awayGoalsPart,
      hlw, hn.ne']

lemma teamMatches_length_mono_home (p : List MatchRow) (t : String) :
    (homeMatches p t).length ≤ (teamMatches p t).length := by
  simp only [homeMatches, teamMatches, ← List.countP_eq_length_filter]
  apply List.countP_mono_left
  intro m _ hm
  simp_all

lemma teamMatches_length_mono_away (p : List MatchRow) (t : String) :
    (awayMatches p t).length ≤ (teamMatches p t).length := by
  simp only [awayMatches, teamMatches, ← List.countP_eq_length_filter]
  apply List.countP_mono_left
  intro m _ hm
  simp_all

lemma engine_goal_fields_home (p : List MatchRow) (t : String) (n : Nat)
    (hn : 0 < n) (hlen : n ≤ (homeMatches p t).length) :
    (GlitchEngine.get_team_stats (some p) t true n).avg_goals
        = listMean ((pdTail n (homeMatches p t)).map MatchRow.fthg) ∧
    (GlitchEngine.get_team_stats (some p) t true n).avg_conceded
        = listMean ((pdTail n (homeMatches p t)).map MatchRow.ftag) ∧
    (GlitchEngine.get_team_stats (some p) t true n).btts_rate
        = ((pdTail n (homeMatches p t)).countP bttsBit : ℚ)
            / ((pdTail n (homeMatches p t)).length : ℚ) * 100 := by
  have hlw : (pdTail n (homeMatches p t)).length = n := pdTail_length_eq n _ hlen
  have hlf : (pdTail n (teamMatches p t)).length = n :=
    pdTail_length_eq n _ (le_trans hlen (teamMatches_length_mono_home p t))
  have hwin : (GlitchEngine.venueWindow p t true n).length = n := by
    simp only [GlitchEngine.venueWindow]
    split_ifs <;> simp_all
  refine ⟨?_, ?_, ?_⟩ <;>
    simp [GlitchEngine.get_team_stats, homeGoalsPart, hwin, hlw, hn.ne']

lemma engine_goal_fields_away (p : List MatchRow) (t : String) (n : Nat)
    (hn : 0 < n) (hlen : n ≤ (awayMatches p t).length) :
    (GlitchEngine.get_team_stats (some p) t false n).avg_goals
        = listMean ((pdTail n (awayMatches p t)).map MatchRow.ftag) ∧
    (GlitchEngine.get_team_stats (some p) t false n).avg_conceded
        = listMean ((pdTail n (awayMatches p t)).map MatchRow.fthg) ∧
    (GlitchEngine.get_team_stats (some p) t false n).btts_rate
        = ((pdTail n (awayMatches p t)).countP bttsBit : ℚ)
            / ((pdTail n (awayMatches p t)).length : ℚ) * 100 := by
  have hlw : (pdTail n (awayMatches p t)).length = n := pdTail_length_eq n _ hlen
  have hlf : (pdTail n (teamMatches p t)).length = n :=
    pdTail_length_eq n _ (le_trans hlen (teamMatches_length_mono_away p t))
  have hwin : (GlitchEngine.venueWindow p t false n).length = n := by
    simp only [GlitchEngine.venueWindow]
    split_ifs <;> simp_all
  refine ⟨?_, ?_, ?_⟩ <;>
    simp [GlitchEngine.get_team_stats, awayGoalsPart, hwin, hlw, hn.ne']

/-- Counterexample to claim C1 as stated: the form features are not
computed identically by training and inference. In histC1 team A has five
home wins and then an away loss before row 6. Training forms A's window
from its last five matches at any venue (sum 12), while the inference
lookup windows over A's last five home matches (sum 15). -/
theorem training_inference_form_mismatch :
    ((TrainGlitch.calculate_rolling_stats 5 histC1)[6]?).map
        TrainGlitch.RowFeatures.homeTeamForm = some (some 12) ∧
    (PredictGlitch.get_team_stats (histC1.take 6) "A" true 5).form = 15 ∧
    (GlitchEngine.get_team_stats (some (histC1.take 6)) "A" true 5).form = 15 ∧
    (12 : Nat) ≠ 15 := by decide

/-- Claim C1 amended: for the goal-derived features the training engine and
the inference lookups do agree. For a row whose home (resp. away) team has
at least n prior home (resp. away) rows, the training cells for average
goals scored, average goals conceded and BTTS rate equal the corresponding
fields computed by predict_glitch.get_team_stats on the prior history, and
glitch_engine.get_team_stats returns the same three fields; the form
features are excluded (training windows over all venues, inference over
the venue filter — see the counterexample). -/
theorem training_inference_rate_features_agree (n i : Nat) (h : List MatchRow)
    (m : MatchRow) (hrow : h[i]? = some m) (hn : 0 < n)
    (hhome : n ≤ (homeMatches (h.take i) m.homeTeam).length)
    (haway : n ≤ (awayMatches (h.take i) m.awayTeam).length) :
    ((TrainGlitch.calculate_rolling_stats n h)[i]?).map
        TrainGlitch.RowFeatures.homeAvgGoals
      = some (some (PredictGlitch.get_team_stats (h.take i) m.homeTeam true n).avg_goals) ∧
    ((TrainGlitch.calculate_rolling_stats n h)[i]?).map
        TrainGlitch.RowFeatures.homeAvgConceded
      = some (some (PredictGlitch.get_team_stats (h.take i) m.homeTeam true n).avg_conceded) ∧
    ((TrainGlitch.calculate_rolling_stats n h)[i]?).map
        TrainGlitch.RowFeatures.homeBttsRate
      = some (some (PredictGlitch.get_team_stats (h.take i) m.homeTeam true n).btts_rate) ∧
    ((TrainGlitch.calculate_rolling_stats n h)[i]?).map
        TrainGlitch.RowFeatures.awayAvgGoals
      = some (some (PredictGlitch.get_team_stats (h.take i) m.awayTeam false n).avg_goals) ∧
    ((TrainGlitch.calculate_rolling_stats n h)[i]?).map
        TrainGlitch.RowFeatures.awayAvgConceded
      = some (some (PredictGlitch.get_team_stats (h.take i) m.awayTeam false n).avg_conceded) ∧
    ((TrainGlitch.calculate_rolling_stats n h)[i]?).map
        TrainGlitch.RowFeatures.awayBttsRate
      = some (some (PredictGlitch.get_team_stats (h.take i) m.awayTeam false n).btts_rate) ∧
    (GlitchEngine.get_team_stats (some (h.take i)) m.homeTeam true n).avg_goals
      = (PredictGlitch.get_team_stats (h.take i) m.homeTeam true n).avg_goals ∧
    (GlitchEngine.get_team_stats (some (h.take i)) m.homeTeam true n).avg_conceded
      = (PredictGlitch.get_team_stats (h.take i) m.homeTeam true n).avg_conceded ∧
    (GlitchEngine.get_team_stats (some (h.take i)) m.homeTeam true n).btts_rate
      = (PredictGlitch.get_team_stats (h.take i) m.homeTeam true n).btts_rate ∧
    (GlitchEngine.get_team_stats (some (h.take i)) m.awayTeam false n).avg_goals
      = (PredictGlitch.get_team_stats (h.take i) m.awayTeam false n).avg_goals ∧
    (GlitchEngine.get_team_stats (some (h.take i)) m.awayTeam false n).avg_conceded
      = (PredictGlitch.get_team_stats (h.take i) m.awayTeam false n).avg_conceded ∧
    (GlitchEngine.get_team_stats (some (h.take i)) m.awayTeam false n).btts_rate
      = (PredictGlitch.get_team_stats (h.take i) m.awayTeam false n).btts_rate := by
  have hT : (TrainGlitch.calculate_rolling_stats n h)[i]?
      = some (TrainGlitch.computeRow
          (TrainGlitch.stateAfter TrainGlitch.initState (h.take i)) n m) := by
    rw [TrainGlitch.calculate_rolling_stats, rollingLoop_getElem, hrow]
    rfl
  have hPH := predict_goal_fields_home (h.take i) m.homeTeam n hn hhome
  have hPA := predict_goal_fields_away (h.take i) m.awayTeam n hn haway
  have hEH := engine_goal_fields_home (h.take i) m.homeTeam n hn hhome
  have hEA := engine_goal_fields_away (h.take i) m.awayTeam n hn haway
  have hsg := state_home_goals (h.take i) m.homeTeam
  have hsc := state_home_conceded (h.take i) m.homeTeam
  have hsb := state_home_btts (h.take i) m.homeTeam
  have hag := state_away_goals (h.take i) m.awayTeam
  have hac := state_away_conceded (h.take i) m.awayTeam
  have hab := state_away_btts (h.take i) m.awayTeam
  refine ⟨?_, ?_, ?_, ?_, ?_, ?_, ?_, ?_, ?_, ?_, ?_, ?_⟩
  · rw [hT]
    simp only [Option.map_some', TrainGlitch.computeRow, hsg, List.length_map,
      hhome, if_true]
    rw [pyLast_map_eq n hn.ne', hPH.1]
  · rw [hT]
    simp only [Option.map_some', TrainGlitch.computeRow, hsg, hsc, List.length_map,
      hhome, if_true]
    rw [pyLast_map_eq n hn.ne', hPH.2.1]
  · rw [hT]
    simp only [Option.map_some', TrainGlitch.computeRow, hsg, hsb, List.length_map,
      hhome, if_true]
    rw [pyLast_map_eq n hn.ne', listMean_btts, hPH.2.2]
  · rw [hT]
    simp only [Option.map_some', TrainGlitch.computeRow, hag, List.length_map,
      haway, if_true]
    rw [pyLast_map_eq n hn.ne', hPA.1]
  · rw [hT]
    simp only [Option.map_some', TrainGlitch.computeRow, hag, hac, List.length_map,
      haway, if_true]
    rw [pyLast_map_eq n hn.ne', hPA.2.1]
  · rw [hT]
    simp only [Option.map_some', TrainGlitch.computeRow, hag, hab, List.length_map,
      haway, if_true]
    rw [pyLast_map_eq n hn.ne', listMean_btts, hPA.2.2]
  · rw [hEH.1, hPH.1]
  · rw [hEH.2.1, hPH.2.1]
  · rw [hEH.2.2, hPH.2.2]
  · rw [hEA.1, hPA.1]
  · rw [hEA.2.1, hPA.2.1]
  · rw [hEA.2.2, hPA.2.2]

/-- Witness for training_inference_rate_features_agree on the two-row
history histC1w at row 1 with window 1. -/
theorem training_inference_rate_features_agree_witness :
    (histC1w[1]? = some ⟨"A", "B", 0, 0, FTR.D⟩) ∧ (0 < 1) ∧
    (1 ≤ (homeMatches (histC1w.take 1) "A").length) ∧
    (1 ≤ (awayMatches (histC1w.take 1) "B").length) ∧
    (((TrainGlitch.calculate_rolling_stats 1 histC1w)[1]?).map
        TrainGlitch.RowFeatures.homeAvgGoals
      = some (some (PredictGlitch.get_team_stats (histC1w.take 1) "A" true 1).avg_goals) ∧
    ((TrainGlitch.calculate_rolling_stats 1 histC1w)[1]?).map
        TrainGlitch.RowFeatures.homeAvgConceded
      = some (some (PredictGlitch.get_team_stats (histC1w.take 1) "A" true 1).avg_conceded) ∧
    ((TrainGlitch.calculate_rolling_stats 1 histC1w)[1]?).map
        TrainGlitch.RowFeatures.homeBttsRate
      = some (some (PredictGlitch.get_team_stats (histC1w.take 1) "A" true 1).btts_rate) ∧
    ((TrainGlitch.calculate_rolling_stats 1 histC1w)[1]?).map
        TrainGlitch.RowFeatures.awayAvgGoals
      = some (some (PredictGlitch.get_team_stats (histC1w.take 1) "B" false 1).avg_goals) ∧
    ((TrainGlitch.calculate_rolling_stats 1 histC1w)[1]?).map
        TrainGlitch.RowFeatures.awayAvgConceded
      = some (some (PredictGlitch.get_team_stats (histC1w.take 1) "B" false 1).avg_conceded) ∧
    ((TrainGlitch.calculate_rolling_stats 1 histC1w)[1]?).map
        TrainGlitch.RowFeatures.awayBttsRate
      = some (some (PredictGlitch.get_team_stats (histC1w.take 1) "B" false 1).btts_rate) ∧
    (GlitchEngine.get_team_stats (some (histC1w.take 1)) "A" true 1).avg_goals
      = (PredictGlitch.get_team_stats (histC1w.take 1) "A" true 1).avg_goals ∧
    (GlitchEngine.get_team_stats (some (histC1w.take 1)) "A" true 1).avg_conceded
      = (PredictGlitch.get_team_stats (histC1w.take 1) "A" true 1).avg_conceded ∧
    (GlitchEngine.get_team_stats (some (histC1w.take 1)) "A" true 1).btts_rate
      = (PredictGlitch.get_team_stats (histC1w.take 1) "A" true 1).btts_rate ∧
    (GlitchEngine.get_team_stats (some (histC1w.take 1)) "B" false 1).avg_goals
      = (PredictGlitch.get_team_stats (histC1w.take 1) "B" false 1).avg_goals ∧
    (GlitchEngine.get_team_stats (some (histC1w.take 1)) "B" false 1).avg_conceded
      = (PredictGlitch.get_team_stats (histC1w.take 1) "B" false 1).avg_conceded ∧
    (GlitchEngine.get_team_stats (some (histC1w.take 1)) "B" false 1).btts_rate
      = (PredictGlitch.get_team_stats (histC1w.take 1) "B" false 1).btts_rate) :=
  ⟨by decide, by decide, by decide, by decide,
    training_inference_rate_features_agree 1 1 histC1w ⟨"A", "B", 0, 0, FTR.D⟩
      (by decide) (by decide) (by decide) (by decide)⟩
